import Mathlib

/-!
Verification development for the creative-brief pipeline of
`generate_brief.py` (autonomous kids shorts generator).

The Python source is shallowly embedded as executable Lean definitions:
  * the typed document model (`Character`, `WorldBuilding`, `CameraDirection`,
    `ShotBreakdown`, `Act`, `ContentSafetyCheck`, `CreativeBrief`);
  * `ContentSafetyValidator.validate` as `validate` (a Python `ValueError`
    raised by `int(...)` is modelled as `Option.none`);
  * `JSONValidator.validate_and_repair` as `validate_and_repair`, over a
    generic value type `PyVal` and a model `jsonLoads` of `json.loads`
    restricted to integer numerics and the simple string escapes;
  * `BriefGenerator._build_brief_object` as `buildBriefObject`, returning
    `Except BuildErr CreativeBrief` where `BuildErr` separates genuine Python
    exceptions (`typeErr` for TypeError, `attrErr` for AttributeError) from
    `unrep`, a modelling artifact marking inputs on which Python would succeed
    but store a value outside the typed field's domain (such inputs are
    excluded from the well-shapedness hypotheses and never used as evidence).

Machine strings are Lean `String`s; `lower()`/`upper()` are modelled on the
ASCII range (all taxonomy keywords are ASCII), numeric fields carry `Int`
(no float arithmetic occurs in the modelled code), and Python `repr` of
strings is modelled for printable ASCII without control characters.
-/

namespace KidsShorts

set_option maxRecDepth 16384

set_option maxHeartbeats 2000000

/-- Prefix test on character lists (Python-style, used for substring search). -/
def isPre : List Char → List Char → Bool
  | [], _ => true
  | _ :: _, [] => false
  | a :: n, b :: h => a == b && isPre n h

/-- Substring containment on character lists: Python's `needle in hay`. -/
def isSubCL : List Char → List Char → Bool
  | needle, [] => needle.isEmpty
  | needle, c :: t => isPre needle (c :: t) || isSubCL needle t

/-- Python's `needle in hay` for strings (raw substring containment). -/
def isSub (needle hay : String) : Bool := isSubCL needle.toList hay.toList

/-- Python `str.lower()` restricted to ASCII. -/
def asciiLower (s : String) : String := String.mk (s.toList.map Char.toLower)

/-- Python `str.upper()` restricted to ASCII. -/
def asciiUpper (s : String) : String := String.mk (s.toList.map Char.toUpper)

/-- Python `str.replace(old, new)` for the single-character case used by the
source (`category.replace(underscore, space)`). -/
def replaceUnderscore (s : String) : String :=
  String.mk (s.toList.map (fun c => if c = '_' then ' ' else c))

/-- Python `str.title()` on ASCII: a letter is upper-cased when the previous
character is not a letter, lower-cased otherwise. -/
def pyTitleCL (prevAlpha : Bool) : List Char → List Char
  | [] => []
  | c :: t =>
      (if c.isAlpha then (if prevAlpha then c.toLower else c.toUpper) else c)
        :: pyTitleCL c.isAlpha t

/-- Python `str.title()` (ASCII). -/
def pyTitle (s : String) : String := String.mk (pyTitleCL false s.toList)

/-- Whitespace characters stripped by Python's `int(str)` conversion. -/
def isPySpace (c : Char) : Bool :=
  c = ' ' || c = '\t' || c = '\n' || c = '\r' || c = Char.ofNat 11 || c = Char.ofNat 12

/-- Numeric value of a list of decimal digit characters. -/
def natOfDigits (ds : List Char) : Nat :=
  ds.foldl (fun a c => a * 10 + (c.toNat - 48)) 0

/-- Python `int(s)` for a string: strips whitespace, accepts an optional sign
followed by decimal digits, and raises `ValueError` (here: `none`) otherwise.
(Underscore digit grouping, an obscure Python literal feature, is omitted.) -/
def pyInt (s : String) : Option Int :=
  let core := ((s.toList.dropWhile isPySpace).reverse.dropWhile isPySpace).reverse
  match core with
  | '-' :: ds =>
      if ds ≠ [] ∧ ds.all Char.isDigit then some (-(natOfDigits ds : Int)) else none
  | '+' :: ds =>
      if ds ≠ [] ∧ ds.all Char.isDigit then some (natOfDigits ds : Int) else none
  | ds =>
      if ds ≠ [] ∧ ds.all Char.isDigit then some (natOfDigits ds : Int) else none

/-- Split a character list at every occurrence of `sep` (Python
`str.split(sep)` for a single-character separator: always at least one
segment, empty segments kept). -/
def splitCL (sep : Char) : List Char → List (List Char)
  | [] => [[]]
  | c :: t =>
    if c = sep then [] :: splitCL sep t
    else
      match splitCL sep t with
      | h :: r => (c :: h) :: r
      | [] => [[c]]

/-- Python `s.split(hyphen)`. -/
def pySplitHyphen (s : String) : List String :=
  (splitCL '-' s.toList).map String.mk

/-- Python `repr` of a string, for printable ASCII without control characters:
single quotes unless the string holds a single quote and no double quote;
backslashes and the chosen quote are escaped. -/
def pyReprStr (s : String) : String :=
  let sq : Char := Char.ofNat 39
  let dq : Char := '"'
  let q := if s.toList.contains sq && !(s.toList.contains dq) then dq else sq
  let body := s.toList.foldr
    (fun c acc => if c = '\\' || c = q then '\\' :: c :: acc else c :: acc) []
  String.mk (q :: body ++ [q])

/-- Comma-space separated concatenation, as inside Python list display. -/
def commaSep : List String → String
  | [] => ""
  | [s] => s
  | s :: rest => s ++ ", " ++ commaSep rest

/-- Python `str(list_of_str)`: bracketed, comma-separated `repr`s. This is what
an f-string interpolation of a `List[str]` field produces. -/
def pyStrList (l : List String) : String := "[" ++ commaSep (l.map pyReprStr) ++ "]"

/-! ## Document model (the dataclasses of `generate_brief.py`) -/

/-- ContentRating enum of the source. -/
inductive ContentRating where
  | G
  | PG
  | PG_13
  | NOT_SUITABLE
deriving DecidableEq, Repr

/-- ActType enum of the source. -/
inductive ActType where
  | SETUP
  | CONFRONTATION
  | RESOLUTION
deriving DecidableEq, Repr

/-- Character dataclass. -/
structure Character where
  name : String
  age : Int
  description : String
  personality_traits : List String
  role : String
  appearance : String
  voice_characteristics : Option String
  character_arc : Option String
deriving DecidableEq, Repr

/-- WorldBuilding dataclass. -/
structure WorldBuilding where
  setting : String
  time_period : String
  location_description : String
  cultural_elements : List String
  technology_level : String
  environmental_details : String
  rules_of_world : List String
deriving DecidableEq, Repr

/-- CameraDirection dataclass (`duration_seconds` restricted to integers;
no arithmetic is performed on it in the modelled code). -/
structure CameraDirection where
  type : String
  description : String
  duration_seconds : Int
deriving DecidableEq, Repr

/-- ShotBreakdown dataclass. -/
structure ShotBreakdown where
  shot_number : Int
  duration_seconds : Int
  scene_description : String
  camera_direction : CameraDirection
  narration : String
  character_actions : List String
  visual_elements : List String
  transitions : Option String
  sound_design : Option String
deriving DecidableEq, Repr

/-- Act dataclass. -/
structure Act where
  act_type : ActType
  title : String
  description : String
  duration_seconds : Int
  key_plot_points : List String
  emotional_tone : String
deriving DecidableEq, Repr

/-- ContentSafetyCheck dataclass. -/
structure ContentSafetyCheck where
  is_safe : Bool
  rating : ContentRating
  safety_flags : List String
  warnings : List String
  recommendations : List String
deriving DecidableEq, Repr

/-- Generic Python/JSON value, the output domain of `json.loads` and the input
domain of `_build_brief_object` (numerics restricted to integers). -/
inductive PyVal where
  | null
  | bool (b : Bool)
  | num (n : Int)
  | str (s : String)
  | list (xs : List PyVal)
  | dict (kvs : List (String × PyVal))
deriving Repr

/-- CreativeBrief dataclass (root aggregate). `metadata` keeps the generic
value type of the source's free-form mapping. -/
structure CreativeBrief where
  brief_id : String
  title : String
  synopsis : String
  target_audience_age_range : String
  duration_seconds : Int
  characters : List Character
  world_building : WorldBuilding
  three_act_structure : List Act
  nine_shot_breakdown : List ShotBreakdown
  themes : List String
  moral_lessons : List String
  visual_style : String
  animation_style : String
  music_style : String
  content_safety : ContentSafetyCheck
  generated_at : String
  model_used : String
  metadata : List (String × PyVal)

/-! ## ContentSafetyValidator -/

/-- `ContentSafetyValidator.FORBIDDEN_KEYWORDS` (dict iteration order is
insertion order). -/
def FORBIDDEN_KEYWORDS : List (String × List String) :=
  [("violence", ["kill", "murder", "stab", "shoot", "gun", "weapon", "blood", "death", "die", "dead"]),
   ("adult_content", ["sexual", "sex", "adult", "mature", "inappropriate", "vulgar"]),
   ("substance_abuse", ["drug", "alcohol", "smoking", "drunk", "addict"]),
   ("scary", ["horror", "terrifying", "nightmare", "monster", "evil"])]

/-- `ContentSafetyValidator.CAUTION_KEYWORDS`. -/
def CAUTION_KEYWORDS : List (String × List String) :=
  [("mild_conflict", ["fight", "argue", "yell", "angry"]),
   ("minor_peril", ["danger", "risk", "injury", "hurt", "scared"])]

/-- `ContentSafetyValidator.POSITIVE_KEYWORDS`. -/
def POSITIVE_KEYWORDS : List (String × List String) :=
  [("educational", ["learn", "discover", "explore", "understand", "knowledge"]),
   ("positive_values", ["friendship", "help", "kind", "brave", "honest", "share", "care"]),
   ("growth", ["grow", "improve", "overcome", "achieve", "success"])]

/-- The `(category, keyword)` pairs of a taxonomy whose keyword occurs in
`content`, in the nested-loop order of the source. Each keyword is tested
once with `keyword in content`, so it contributes at most one pair.
(Made irreducible after its lemmas below, as with `scannedContent`.) -/
def matchesIn (content : String) : List (String × List String) → List (String × String)
  | [] => []
  | (cat, kws) :: rest =>
      (kws.filter (fun kw => isSub kw content)).map (fun kw => (cat, kw))
        ++ matchesIn content rest

/-- All `(category, keyword)` pairs of a taxonomy, in iteration order. -/
def allPairs : List (String × List String) → List (String × String)
  | [] => []
  | (cat, kws) :: rest => kws.map (fun kw => (cat, kw)) ++ allPairs rest

/-- Safety-flag text: `f"{category.upper()}: '{keyword}' detected"`. -/
def fmtFlag (cat kw : String) : String :=
  asciiUpper cat ++ ": \x27" ++ kw ++ "\x27 detected"

/-- Warning text:
`f"{category.replace(underscore, space).title()}: '{keyword}' detected"`. -/
def fmtWarn (cat kw : String) : String :=
  pyTitle (replaceUnderscore cat) ++ ": \x27" ++ kw ++ "\x27 detected"

/-- The exact text scanned by `ContentSafetyValidator.validate`: the
triple-quoted f-string `content_to_check`. Each interpolated field sits on
its own line indented by eight spaces. The two `" ".join(...)` lines of the
source carry no braces, so in Python they are literal text, not
interpolations: character descriptions and shot narrations never reach the
scanned text, and the literal expression text appears instead. List-typed
fields (`themes`, `moral_lessons`) are interpolated via `str(list)`.
(`irreducible` only curbs elaborator-side unfolding on symbolic briefs; the
definition is an ordinary computable function and closed evaluations unfold
it explicitly.) -/
@[irreducible] def scannedContent (b : CreativeBrief) : String :=
  "\n        " ++ b.title ++
  "\n        " ++ b.synopsis ++
  "\n        " ++ pyStrList b.themes ++
  "\n        " ++ pyStrList b.moral_lessons ++
  "\n        " ++ b.visual_style ++
  "\n        " ++ b.animation_style ++
  "\n        \" \".join([c.description for c in brief.characters])" ++
  "\n        " ++ b.world_building.location_description ++
  "\n        \" \".join([s.narration for s in brief.nine_shot_breakdown])" ++
  "\n        "

/-- `content_lower` of the source: the scanned text lower-cased. -/
def scannedLower (b : CreativeBrief) : String := asciiLower (scannedContent b)

/-- Forbidden matches of a brief. -/
def forbiddenList (b : CreativeBrief) : List (String × String) :=
  matchesIn (scannedLower b) FORBIDDEN_KEYWORDS

/-- Caution matches of a brief. -/
def cautionList (b : CreativeBrief) : List (String × String) :=
  matchesIn (scannedLower b) CAUTION_KEYWORDS

/-- Positive matches of a brief. -/
def positiveList (b : CreativeBrief) : List (String × String) :=
  matchesIn (scannedLower b) POSITIVE_KEYWORDS

/-- `caution_count` of the source: one increment per matched caution keyword. -/
def cautionCount (b : CreativeBrief) : Nat := (cautionList b).length

/-- `positive_count` of the source. -/
def positiveCount (b : CreativeBrief) : Nat := (positiveList b).length

/-- The rating as a function of whether no forbidden keyword matched and of
the caution count (the two data the source's rating logic reads). -/
def ratingFromCounts (noForbidden : Bool) (cc : Nat) : ContentRating :=
  if noForbidden then
    if cc > 3 then ContentRating.PG_13
    else if cc > 1 then ContentRating.PG
    else ContentRating.G
  else ContentRating.NOT_SUITABLE

/-- The recommendation appended by the rating branch, as a function of the
same two data (empty when a forbidden match forced NOT_SUITABLE, since that
branch is skipped). -/
def ratingRecsFromCounts (noForbidden : Bool) (cc : Nat) : List String :=
  if noForbidden then
    if cc > 3 then ["Consider reducing conflict intensity"]
    else if cc > 1 then ["Minor parental guidance suggested"]
    else []
  else []

/-- Final `rating`: set to NOT_SUITABLE inside the forbidden loop whenever
any forbidden keyword matches (equivalently: iff the forbidden match list is
nonempty), otherwise derived from `caution_count`. -/
def ratingOf (b : CreativeBrief) : ContentRating :=
  ratingFromCounts (forbiddenList b).isEmpty (cautionCount b)

/-- The recommendation appended by the rating branch of `validate`. -/
def ratingRecs (b : CreativeBrief) : List String :=
  ratingRecsFromCounts (forbiddenList b).isEmpty (cautionCount b)

/-- `is_safe = rating != NOT_SUITABLE`. -/
def isSafeOf : ContentRating → Bool
  | ContentRating.NOT_SUITABLE => false
  | _ => true

/-- The safety-flag list built by the forbidden loop. -/
def flagsOf (b : CreativeBrief) : List String :=
  (forbiddenList b).map (fun p => fmtFlag p.1 p.2)

/-- The warning list built by the caution loop. -/
def warningsOf (b : CreativeBrief) : List String :=
  (cautionList b).map (fun p => fmtWarn p.1 p.2)

/-- The lower bound the source extracts from the age range:
`int(brief.target_audience_age_range.split(hyphen)[0])`; `none` models the
`ValueError` Python raises on a non-numeric segment. -/
def ageLowerOf (b : CreativeBrief) : Option Int :=
  pyInt ((pySplitHyphen b.target_audience_age_range).headD "")

/-- The recommendation list built by `validate`, with its appends in source
order: rating branch, then positive-count branch, then age branch. -/
def recsOf (b : CreativeBrief) (age : Int) : List String :=
  ratingRecs b
    ++ (if positiveCount b > 5 then
          ["Strong positive messaging and educational value"] else [])
    ++ (if age < 5 ∧ cautionCount b > 0 then
          ["Simplify language and reduce scary elements for younger audiences"]
        else [])

/-- `ContentSafetyValidator.validate`. Returns `none` exactly when the
`int(...)` age-range conversion raises, which aborts the whole call before
any `ContentSafetyCheck` is returned. -/
def validate (b : CreativeBrief) : Option ContentSafetyCheck :=
  match ageLowerOf b with
  | none => none
  | some age =>
      some ⟨isSafeOf (ratingOf b), ratingOf b, flagsOf b, warningsOf b, recsOf b age⟩

/-! ## JSONValidator: strict parse model and the two textual repairs -/

theorem length_dropWhile_le (p : Char → Bool) :
    ∀ l : List Char, (l.dropWhile p).length ≤ l.length := by
  intro l
  induction l with
  | nil => simp
  | cons c t ih =>
    by_cases h : p c = true
    · rw [List.dropWhile_cons_of_pos h]
      exact Nat.le_succ_of_le ih
    · rw [List.dropWhile_cons_of_neg h]

/-- JSON whitespace accepted between tokens by `json.loads`. -/
def isJsonWs (c : Char) : Bool := c = ' ' || c = '\t' || c = '\n' || c = '\r'

/-- Skip JSON whitespace. -/
def skipWs (cs : List Char) : List Char := cs.dropWhile isJsonWs

/-- The simple JSON string escapes (`\uXXXX` is outside the model; inputs
used below contain none). -/
def escMap (c : Char) : Option Char :=
  if c = '"' then some '"'
  else if c = '\\' then some '\\'
  else if c = '/' then some '/'
  else if c = 'b' then some (Char.ofNat 8)
  else if c = 'f' then some (Char.ofNat 12)
  else if c = 'n' then some '\n'
  else if c = 'r' then some '\r'
  else if c = 't' then some '\t'
  else none

/-- Parse a JSON string body after the opening quote; raw control characters
are rejected as in strict `json.loads`. -/
def parseStringBody : List Char → Option (List Char × List Char)
  | [] => none
  | c :: rest =>
    if c = '"' then some ([], rest)
    else if c = '\\' then
      match rest with
      | [] => none
      | e :: rest2 =>
        match escMap e with
        | none => none
        | some ch =>
          match parseStringBody rest2 with
          | none => none
          | some (acc, rem) => some (ch :: acc, rem)
    else if c.toNat < 32 then none
    else
      match parseStringBody rest with
      | none => none
      | some (acc, rem) => some (c :: acc, rem)

/-- Parse an unsigned JSON integer (leading-zero rule of JSON; a following
`.`/`e`/`E` would start a float, which is outside the integer-numeric model). -/
def parseNatTok : List Char → Option (Nat × List Char)
  | [] => none
  | c :: rest =>
    if c = '0' then
      match rest with
      | d :: _ =>
          if d.isDigit || d = '.' || d = 'e' || d = 'E' then none else some (0, rest)
      | [] => some (0, [])
    else if c.isDigit then
      let ds := rest.takeWhile Char.isDigit
      let rem := rest.dropWhile Char.isDigit
      match rem with
      | d :: _ =>
          if d = '.' || d = 'e' || d = 'E' then none
          else some (natOfDigits (c :: ds), rem)
      | [] => some (natOfDigits (c :: ds), [])
    else none

/-- Parse a JSON integer with optional minus sign. -/
def parseNumTok (cs : List Char) : Option (Int × List Char) :=
  match cs with
  | '-' :: rest => (parseNatTok rest).map (fun p => (-(p.1 : Int), p.2))
  | _ => (parseNatTok cs).map (fun p => ((p.1 : Int), p.2))

mutual

/-- Recursive-descent model of `json.loads` value parsing (fuelled). -/
def parseVal : Nat → List Char → Option (PyVal × List Char)
  | 0, _ => none
  | fuel + 1, cs =>
    match skipWs cs with
    | [] => none
    | 't' :: 'r' :: 'u' :: 'e' :: r => some (PyVal.bool true, r)
    | 'f' :: 'a' :: 'l' :: 's' :: 'e' :: r => some (PyVal.bool false, r)
    | 'n' :: 'u' :: 'l' :: 'l' :: r => some (PyVal.null, r)
    | '"' :: r => (parseStringBody r).map (fun p => (PyVal.str (String.mk p.1), p.2))
    | '[' :: r =>
      (match skipWs r with
       | ']' :: r2 => some (PyVal.list [], r2)
       | _ => (parseItems fuel r).map (fun p => (PyVal.list p.1, p.2)))
    | c :: r =>
      if c = '\x7b' then
        (match skipWs r with
         | c2 :: r2 =>
             if c2 = '\x7d' then some (PyVal.dict [], r2)
             else (parseMembers fuel (c2 :: r2)).map (fun p => (PyVal.dict p.1, p.2))
         | [] => none)
      else (parseNumTok (c :: r)).map (fun p => (PyVal.num p.1, p.2))

/-- Parse the members of a JSON object, positioned at the first key. -/
def parseMembers : Nat → List Char → Option (List (String × PyVal) × List Char)
  | 0, _ => none
  | fuel + 1, cs =>
    match skipWs cs with
    | '"' :: r =>
      (match parseStringBody r with
       | none => none
       | some (kcs, r1) =>
         match skipWs r1 with
         | ':' :: r2 =>
           (match parseVal fuel r2 with
            | none => none
            | some (v, r3) =>
              match skipWs r3 with
              | ',' :: r4 =>
                (match parseMembers fuel r4 with
                 | none => none
                 | some (kvs, r5) => some ((String.mk kcs, v) :: kvs, r5))
              | c :: r4 =>
                  if c = '\x7d' then some ([(String.mk kcs, v)], r4) else none
              | [] => none)
         | _ => none)
    | _ => none

/-- Parse the items of a JSON array, positioned at the first item. -/
def parseItems : Nat → List Char → Option (List PyVal × List Char)
  | 0, _ => none
  | fuel + 1, cs =>
    match parseVal fuel cs with
    | none => none
    | some (v, r1) =>
      match skipWs r1 with
      | ',' :: r2 =>
        (match parseItems fuel r2 with
         | none => none
         | some (vs, r3) => some (v :: vs, r3))
      | ']' :: r2 => some ([v], r2)
      | _ => none

end

/-- Model of strict `json.loads`: one value, then nothing but whitespace. -/
def jsonLoads (s : String) : Option PyVal :=
  match parseVal (s.length + 1) s.toList with
  | some (v, rem) => if (skipWs rem).isEmpty then some v else none
  | none => none

/-- Try to match `\s*[}\]]` (the tail of the trailing-comma pattern) at the
head of the list, returning the whitespace run, the bracket, and the rest. -/
def trailMatch : List Char → Option (List Char × Char × List Char)
  | [] => none
  | c :: r =>
    if c = '\x7d' || c = ']' then some ([], c, r)
    else if isPySpace c then
      match trailMatch r with
      | some (ws, b, rest) => some (c :: ws, b, rest)
      | none => none
    else none

theorem trailMatch_length : ∀ {cs ws r : List Char} {bc : Char},
    trailMatch cs = some (ws, bc, r) → r.length < cs.length := by
  intro cs
  induction cs with
  | nil => intro ws r bc h; exact absurd h (by simp [trailMatch])
  | cons c t ih =>
    intro ws r bc h
    unfold trailMatch at h
    by_cases h1 : (c = '\x7d' || c = ']') = true
    · rw [if_pos h1] at h
      cases h
      simp
    · rw [if_neg h1] at h
      by_cases h2 : isPySpace c = true
      · rw [if_pos h2] at h
        rcases h3 : trailMatch t with _ | ⟨ws2, bc2, rest2⟩ <;> rw [h3] at h
        · exact absurd h (by simp)
        · cases h
          exact Nat.lt_succ_of_lt (ih h3)
      · rw [if_neg h2] at h
        exact absurd h (by simp)

/-- Fuelled scan for `re.sub(r",(\s*[}\]])", r"\1", text)`: left-to-right,
non-overlapping; on a match the comma is dropped and scanning resumes after
the bracket. Structural recursion on fuel keeps the function
kernel-reducible; by `trailMatch_length` every recursive call is on a
strictly shorter list, so fuel equal to the input length (as supplied by
`subTrailing`) is never exhausted. -/
def subTrailingF : Nat → List Char → List Char
  | 0, cs => cs
  | _ + 1, [] => []
  | fuel + 1, c :: rest =>
    if c = ',' then
      match trailMatch rest with
      | some (ws, b, r) => ws ++ b :: subTrailingF fuel r
      | none => c :: subTrailingF fuel rest
    else c :: subTrailingF fuel rest

/-- `re.sub(r",(\s*[}\]])", r"\1", text)`. The pattern is applied to the raw
text, so it also fires inside string literals. -/
def subTrailing (cs : List Char) : List Char := subTrailingF cs.length cs

/-- Character class `[a-zA-Z0-9_]` of the key-quoting pattern. -/
def isWordChar (c : Char) : Bool := c.isAlphanum || c = '_'

/-- Try to match `[a-zA-Z_][a-zA-Z0-9_]*` at the head, returning the
identifier and the rest. -/
def identSplit : List Char → Option (List Char × List Char)
  | [] => none
  | c :: t =>
    if c.isAlpha || c = '_' then some (c :: t.takeWhile isWordChar, t.dropWhile isWordChar)
    else none

/-- Try to match `\s*:` at the head, returning the whitespace run and the
rest after the colon. -/
def wsThenColon : List Char → Option (List Char × List Char)
  | [] => none
  | c :: r =>
    if c = ':' then some ([], r)
    else if isPySpace c then
      match wsThenColon r with
      | some (ws, rest) => some (c :: ws, rest)
      | none => none
    else none

theorem wsThenColon_length : ∀ {cs ws rest : List Char},
    wsThenColon cs = some (ws, rest) → rest.length < cs.length := by
  intro cs
  induction cs with
  | nil => intro ws rest h; exact absurd h (by simp [wsThenColon])
  | cons c t ih =>
    intro ws rest h
    unfold wsThenColon at h
    by_cases h1 : c = ':'
    · rw [if_pos h1] at h
      cases h
      simp
    · rw [if_neg h1] at h
      by_cases h2 : isPySpace c = true
      · rw [if_pos h2] at h
        rcases h3 : wsThenColon t with _ | ⟨ws2, rest2⟩ <;> rw [h3] at h
        · exact absurd h (by simp)
        · cases h
          exact Nat.lt_succ_of_lt (ih h3)
      · rw [if_neg h2] at h
        exact absurd h (by simp)

theorem identSplit_length : ∀ {cs ident r2 : List Char},
    identSplit cs = some (ident, r2) → r2.length < cs.length := by
  intro cs ident r2 h
  cases cs with
  | nil => exact absurd h (by simp [identSplit])
  | cons c t =>
    simp only [identSplit] at h
    by_cases h1 : (c.isAlpha || c = '_') = true
    · rw [if_pos h1] at h
      cases h
      exact Nat.lt_succ_of_le (length_dropWhile_le _ _)
    · rw [if_neg h1] at h
      exact absurd h (by simp)

/-- Finish the key-quoting match after the identifier: `\s*:`. -/
def keyTail (p : List Char × List Char) :
    Option (List Char × List Char × List Char × List Char) :=
  match wsThenColon p.2 with
  | some (ws2, rest) => some ([], p.1, ws2, rest)
  | none => none

theorem keyTail_length {ident r2 ws1 ident2 ws2 r : List Char}
    (h : keyTail (ident, r2) = some (ws1, ident2, ws2, r)) : r.length < r2.length := by
  unfold keyTail at h
  rcases h3 : wsThenColon r2 with _ | ⟨ws2b, rest2⟩ <;> rw [h3] at h
  · exact absurd h (by simp)
  · cases h
    exact wsThenColon_length h3

/-- Try to match `\s*[a-zA-Z_][a-zA-Z0-9_]*\s*:` at the head of the list,
returning (leading whitespace, identifier, trailing whitespace, rest after
the colon). -/
def keyMatch : List Char → Option (List Char × List Char × List Char × List Char)
  | [] => none
  | c :: r =>
    if isPySpace c then
      match keyMatch r with
      | some (ws1, ident, ws2, rest) => some (c :: ws1, ident, ws2, rest)
      | none => none
    else
      match identSplit (c :: r) with
      | some q => keyTail q
      | none => none

theorem keyMatch_length : ∀ {cs ws1 ident ws2 r : List Char},
    keyMatch cs = some (ws1, ident, ws2, r) → r.length < cs.length := by
  intro cs
  induction cs with
  | nil => intro ws1 ident ws2 r h; exact absurd h (by simp [keyMatch])
  | cons c t ih =>
    intro ws1 ident ws2 r h
    unfold keyMatch at h
    by_cases h1 : isPySpace c = true
    · rw [if_pos h1] at h
      rcases h2 : keyMatch t with _ | ⟨a1, a2, a3, a4⟩ <;> rw [h2] at h
      · exact absurd h (by simp)
      · cases h
        exact Nat.lt_succ_of_lt (ih h2)
    · rw [if_neg h1] at h
      rcases h2 : identSplit (c :: t) with _ | ⟨ident2, r2⟩ <;> rw [h2] at h
      · exact absurd h (by simp)
      · have h4 : keyTail (ident2, r2) = some (ws1, ident, ws2, r) := h
        exact Nat.lt_trans (keyTail_length h4) (identSplit_length h2)

/-- Fuelled scan for
`re.sub(r"([{,]\s*)([a-zA-Z_][a-zA-Z0-9_]*)(\s*:)", r'\1"\2"\3', text)`:
wraps bare identifier-like keys after an opening brace or comma in double
quotes. By `keyMatch_length` fuel equal to the input length (as supplied by
`subQuoteKeys`) is never exhausted. -/
def subQuoteKeysF : Nat → List Char → List Char
  | 0, cs => cs
  | _ + 1, [] => []
  | fuel + 1, c :: rest =>
    if c = '\x7b' || c = ',' then
      match keyMatch rest with
      | some (ws1, ident, ws2, r) =>
          c :: ws1 ++ '"' :: ident ++ '"' :: ws2 ++ ':' :: subQuoteKeysF fuel r
      | none => c :: subQuoteKeysF fuel rest
    else c :: subQuoteKeysF fuel rest

/-- `re.sub(r"([{,]\s*)([a-zA-Z_][a-zA-Z0-9_]*)(\s*:)", r'\1"\2"\3', text)`.
Applied to the raw text, so it also fires inside string literals. -/
def subQuoteKeys (cs : List Char) : List Char := subQuoteKeysF cs.length cs

/-- `JSONValidator.validate_and_repair`: strict parse first; on failure apply
the trailing-comma removal then the key-quoting substitution to the raw text
and parse once more (`none` models the re-raised `JSONDecodeError`). -/
def validate_and_repair (s : String) : Option PyVal :=
  match jsonLoads s with
  | some v => some v
  | none => jsonLoads (String.mk (subQuoteKeys (subTrailing s.toList)))

/-! ## BriefGenerator._build_brief_object (the Schema Defaulter) -/

/-- Errors of the builder model. `typeErr` and `attrErr` are the genuine
Python `TypeError`/`AttributeError` raised on the corresponding inputs.
`unrep` is a modelling artifact only: Python would succeed there but store a
value outside the typed field's domain (e.g. an `int` in a `str` field via
`dict.get`), which the typed `CreativeBrief` cannot represent; such inputs
are excluded by the well-shapedness hypotheses below and never used as
evidence about the code. -/
inductive BuildErr where
  | typeErr (msg : String)
  | attrErr (msg : String)
  | unrep (msg : String)
deriving Repr

/-- Python `dict` lookup built from parsed JSON members: on duplicate keys the
later entry wins, as in `json.loads`. -/
def dictGet (kvs : List (String × PyVal)) (k : String) : Option PyVal :=
  kvs.foldl (fun acc p => if p.1 = k then some p.2 else acc) none

/-- Python `d.get(k, default)`. -/
def getD (kvs : List (String × PyVal)) (k : String) (dflt : PyVal) : PyVal :=
  (dictGet kvs k).getD dflt

/-- A value stored into a `str`-typed dataclass field. Python stores any
value; a non-string is unrepresentable in the typed model. -/
def asStr : PyVal → Except BuildErr String
  | PyVal.str s => Except.ok s
  | _ => Except.error (BuildErr.unrep "non-str value for a str field")

/-- A value stored into an `int`-typed (numeric) dataclass field. -/
def asInt : PyVal → Except BuildErr Int
  | PyVal.num n => Except.ok n
  | _ => Except.error (BuildErr.unrep "non-numeric value for a numeric field")

/-- Elementwise string extraction for a `List[str]` field. -/
def strListOf : List PyVal → Except BuildErr (List String)
  | [] => Except.ok []
  | PyVal.str s :: rest =>
      match strListOf rest with
      | Except.ok l => Except.ok (s :: l)
      | Except.error e => Except.error e
  | _ :: _ => Except.error (BuildErr.unrep "non-str element in a str-list field")

/-- A value stored into a `List[str]` field. -/
def asStrList : PyVal → Except BuildErr (List String)
  | PyVal.list xs => strListOf xs
  | _ => Except.error (BuildErr.unrep "non-list value for a list field")

/-- `d.get(k)` (default `None`) stored into an `Optional[str]` field: a
missing key and an explicit `null` both yield `None`. -/
def getOptStr (kvs : List (String × PyVal)) (k : String) : Except BuildErr (Option String) :=
  match dictGet kvs k with
  | Option.none => Except.ok Option.none
  | some PyVal.null => Except.ok Option.none
  | some (PyVal.str s) => Except.ok (some s)
  | some _ => Except.error (BuildErr.unrep "non-str value for an optional str field")

/-- Python `.get(...)` called on a value: only a `dict` has `.get`; every
other value raises `AttributeError`. -/
def asDictAttr : PyVal → Except BuildErr (List (String × PyVal))
  | PyVal.dict kvs => Except.ok kvs
  | _ => Except.error (BuildErr.attrErr "value has no attribute get")

/-- Python `for x in v`: a list iterates its elements; a string iterates its
characters (as 1-character strings); a dict iterates its keys; every other
value raises `TypeError`. -/
def iterElems : PyVal → Except BuildErr (List PyVal)
  | PyVal.list xs => Except.ok xs
  | PyVal.str s => Except.ok (s.toList.map (fun c => PyVal.str (String.mk [c])))
  | PyVal.dict kvs => Except.ok (kvs.map (fun p => PyVal.str p.1))
  | _ => Except.error (BuildErr.typeErr "object is not iterable")

/-- Python `v[:9]`: a list or string is sliced; every other value raises
`TypeError` (unsubscriptable or unhashable slice). -/
def slice9 : PyVal → Except BuildErr (List PyVal)
  | PyVal.list xs => Except.ok (xs.take 9)
  | PyVal.str s => Except.ok ((s.toList.take 9).map (fun c => PyVal.str (String.mk [c])))
  | _ => Except.error (BuildErr.typeErr "object is not subscriptable")

/-- Python `v.lower()`: only a `str` has `.lower`. -/
def pyLowerVal : PyVal → Except BuildErr String
  | PyVal.str s => Except.ok (asciiLower s)
  | _ => Except.error (BuildErr.attrErr "value has no attribute lower")

/-- Python `v.encode()` (used by `_generate_brief_id` on the title): only a
`str` has `.encode`. -/
def asEncodable : PyVal → Except BuildErr String
  | PyVal.str s => Except.ok s
  | _ => Except.error (BuildErr.attrErr "value has no attribute encode")

/-- Sequential parse of a list of generic values (the body of a Python
`for` loop appending to an accumulator). -/
def parseList {α : Type} (f : PyVal → Except BuildErr α) :
    List PyVal → Except BuildErr (List α)
  | [] => Except.ok []
  | v :: vs =>
    match f v with
    | Except.error e => Except.error e
    | Except.ok a =>
      match parseList f vs with
      | Except.error e => Except.error e
      | Except.ok as2 => Except.ok (a :: as2)

/-- One iteration of the character loop: `char_data.get(...)` with the
documented defaults; a non-dict element raises `AttributeError` at the first
`.get`. -/
def parseCharacter (v : PyVal) : Except BuildErr Character :=
  match v with
  | PyVal.dict kvs => do
      let name ← asStr (getD kvs "name" (PyVal.str "Unknown"))
      let age ← asInt (getD kvs "age" (PyVal.num 5))
      let description ← asStr (getD kvs "description" (PyVal.str ""))
      let traits ← asStrList (getD kvs "personality_traits" (PyVal.list []))
      let role ← asStr (getD kvs "role" (PyVal.str "character"))
      let appearance ← asStr (getD kvs "appearance" (PyVal.str ""))
      let voice ← getOptStr kvs "voice_characteristics"
      let arc ← getOptStr kvs "character_arc"
      Except.ok ⟨name, age, description, traits, role, appearance, voice, arc⟩
  | _ => Except.error (BuildErr.attrErr "char_data has no attribute get")

/-- `wb_data = brief_data.get('world_building', {})` followed by the seven
field reads with defaults. -/
def parseWorld (v : PyVal) : Except BuildErr WorldBuilding := do
  let kvs ← asDictAttr v
  let setting ← asStr (getD kvs "setting" (PyVal.str "Unknown"))
  let time_period ← asStr (getD kvs "time_period" (PyVal.str "Present"))
  let location ← asStr (getD kvs "location_description" (PyVal.str ""))
  let cultural ← asStrList (getD kvs "cultural_elements" (PyVal.list []))
  let tech ← asStr (getD kvs "technology_level" (PyVal.str "Modern"))
  let env ← asStr (getD kvs "environmental_details" (PyVal.str ""))
  let rules ← asStrList (getD kvs "rules_of_world" (PyVal.list []))
  Except.ok ⟨setting, time_period, location, cultural, tech, env, rules⟩

/-- One iteration of the act loop: the free-text act type is lower-cased and
classified by substring containment against "setup" then "confrontation",
defaulting to Resolution. -/
def parseAct (v : PyVal) : Except BuildErr Act :=
  match v with
  | PyVal.dict kvs => do
      let act_type_str ← pyLowerVal (getD kvs "act_type" (PyVal.str "Setup"))
      let act_type :=
        if isSub "setup" act_type_str then ActType.SETUP
        else if isSub "confrontation" act_type_str then ActType.CONFRONTATION
        else ActType.RESOLUTION
      let title ← asStr (getD kvs "title" (PyVal.str ""))
      let description ← asStr (getD kvs "description" (PyVal.str ""))
      let duration ← asInt (getD kvs "duration_seconds" (PyVal.num 60))
      let points ← asStrList (getD kvs "key_plot_points" (PyVal.list []))
      let tone ← asStr (getD kvs "emotional_tone" (PyVal.str ""))
      Except.ok ⟨act_type, title, description, duration, points, tone⟩
  | _ => Except.error (BuildErr.attrErr "act_data has no attribute get")

/-- One iteration of the shot loop at 0-based position `idx`: the missing
shot number defaults to `len(shots) + 1`, i.e. `idx + 1`. -/
def parseShot (idx : Nat) (v : PyVal) : Except BuildErr ShotBreakdown :=
  match v with
  | PyVal.dict kvs => do
      let camKvs ← asDictAttr (getD kvs "camera_direction" (PyVal.dict []))
      let camType ← asStr (getD camKvs "type" (PyVal.str "static"))
      let camDesc ← asStr (getD camKvs "description" (PyVal.str ""))
      let camDur ← asInt (getD camKvs "duration_seconds" (PyVal.num 5))
      let shot_number ← asInt (getD kvs "shot_number" (PyVal.num (idx + 1 : Nat)))
      let duration ← asInt (getD kvs "duration_seconds" (PyVal.num 20))
      let scene ← asStr (getD kvs "scene_description" (PyVal.str ""))
      let narration ← asStr (getD kvs "narration" (PyVal.str ""))
      let actions ← asStrList (getD kvs "character_actions" (PyVal.list []))
      let visuals ← asStrList (getD kvs "visual_elements" (PyVal.list []))
      let transitions ← getOptStr kvs "transitions"
      let sound ← getOptStr kvs "sound_design"
      Except.ok ⟨shot_number, duration, scene, ⟨camType, camDesc, camDur⟩,
        narration, actions, visuals, transitions, sound⟩
  | _ => Except.error (BuildErr.attrErr "shot_data has no attribute get")

/-- The shot loop with its running 0-based position. -/
def parseShotsIdx : Nat → List PyVal → Except BuildErr (List ShotBreakdown)
  | _, [] => Except.ok []
  | idx, v :: vs =>
    match parseShot idx v with
    | Except.error e => Except.error e
    | Except.ok s =>
      match parseShotsIdx (idx + 1) vs with
      | Except.error e => Except.error e
      | Except.ok rest => Except.ok (s :: rest)

/-- `BriefGenerator._generate_default_acts()`. -/
def defaultActs : List Act :=
  [⟨ActType.SETUP, "Introduction", "Introduce characters and setting", 60,
      ["Character introduction", "Setting establishment"], "Warm and inviting"⟩,
   ⟨ActType.CONFRONTATION, "Challenge", "Main conflict or challenge", 60,
      ["Problem appears", "Characters respond"], "Engaging and dynamic"⟩,
   ⟨ActType.RESOLUTION, "Resolution", "Resolution and learning", 60,
      ["Problem solved", "Lesson learned"], "Satisfying and uplifting"⟩]

/-- `BriefGenerator._generate_default_shots()`: nine 20-second static shots
with "Cut" transitions and "Ambient sound" sound design. -/
def defaultShots : List ShotBreakdown :=
  (List.range 9).map (fun i =>
    ⟨(i + 1 : Nat), 20, "Scene " ++ toString (i + 1), ⟨"static", "Static camera", 20⟩,
      "", [], [], some "Cut", some "Ambient sound"⟩)

mutual

/-- Python `str`/`repr` of a generic value (used by the source only for
`len(str(brief_data))` in the metadata). -/
def pyReprVal : PyVal → String
  | PyVal.null => "None"
  | PyVal.bool b => if b then "True" else "False"
  | PyVal.num n => toString n
  | PyVal.str s => pyReprStr s
  | PyVal.list xs => "[" ++ pyReprList xs ++ "]"
  | PyVal.dict kvs => "\x7b" ++ pyReprDict kvs ++ "\x7d"

/-- Comma-separated `repr`s of list elements. -/
def pyReprList : List PyVal → String
  | [] => ""
  | [v] => pyReprVal v
  | v :: vs => pyReprVal v ++ ", " ++ pyReprList vs

/-- Comma-separated `key: value` `repr`s of dict members. -/
def pyReprDict : List (String × PyVal) → String
  | [] => ""
  | [(k, v)] => pyReprStr k ++ ": " ++ pyReprVal v
  | (k, v) :: kvs => pyReprStr k ++ ": " ++ pyReprVal v ++ ", " ++ pyReprDict kvs

end

/-- `BriefGenerator._build_brief_object(brief_data, shots_data)`.

Ambient effects are abstracted as parameters: `idf` stands for
`_generate_brief_id` (wall-clock timestamp plus an 8-character md5 of the
title), `now` for `datetime.utcnow().isoformat()`, and `model` for
`self.model`. Evaluation follows source order: brief id, characters, world
building, acts, shots, then the constructor's field expressions. -/
def buildBriefObject (idf : String → String) (now model : String)
    (brief_data shots_data : PyVal) : Except BuildErr CreativeBrief := do
  let bkvs ← asDictAttr brief_data
  let titleForId ← asEncodable (getD bkvs "title" (PyVal.str "untitled"))
  let brief_id := idf titleForId
  let charsRaw ← iterElems (getD bkvs "characters" (PyVal.list []))
  let characters ← parseList parseCharacter charsRaw
  let world ← parseWorld (getD bkvs "world_building" (PyVal.dict []))
  let skvs ← asDictAttr shots_data
  let actsRaw ← iterElems (getD skvs "three_act_structure" (PyVal.list []))
  let acts ← parseList parseAct actsRaw
  let shotsRaw ← slice9 (getD skvs "nine_shot_breakdown" (PyVal.list []))
  let shots ← parseShotsIdx 0 shotsRaw
  let title ← asStr (getD bkvs "title" (PyVal.str "Untitled Story"))
  let synopsis ← asStr (getD bkvs "synopsis" (PyVal.str ""))
  let ageRange ← asStr (getD bkvs "target_audience_age_range" (PyVal.str "4-8"))
  let duration ← asInt (getD bkvs "duration_seconds" (PyVal.num 180))
  let themes ← asStrList (getD bkvs "themes" (PyVal.list []))
  let lessons ← asStrList (getD bkvs "moral_lessons" (PyVal.list []))
  let visual ← asStr (getD bkvs "visual_style" (PyVal.str ""))
  let anim ← asStr (getD bkvs "animation_style" (PyVal.str ""))
  let music ← asStr (getD bkvs "music_style" (PyVal.str ""))
  Except.ok
    { brief_id := brief_id,
      title := title,
      synopsis := synopsis,
      target_audience_age_range := ageRange,
      duration_seconds := duration,
      characters := characters,
      world_building := world,
      three_act_structure := if acts.isEmpty then defaultActs else acts,
      nine_shot_breakdown := if shots.isEmpty then defaultShots else shots,
      themes := themes,
      moral_lessons := lessons,
      visual_style := visual,
      animation_style := anim,
      music_style := music,
      content_safety := ⟨true, ContentRating.G, [], [], []⟩,
      generated_at := now,
      model_used := model,
      metadata :=
        [("generator_version", PyVal.str "1.0"),
         ("generation_timestamp", PyVal.str now),
         ("prompt_length", PyVal.num ((pyReprVal brief_data).length : Nat))] }

/-! ## Helper lemmas about the classifier -/

theorem validate_some_elim {b : CreativeBrief} {check : ContentSafetyCheck}
    (h : validate b = some check) :
    ∃ age, ageLowerOf b = some age ∧
      check = ⟨isSafeOf (ratingOf b), ratingOf b, flagsOf b, warningsOf b, recsOf b age⟩ := by
  unfold validate at h
  rcases hag : ageLowerOf b with _ | age <;> rw [hag] at h
  · exact absurd h (by simp)
  · exact ⟨age, rfl, (Option.some.inj h).symm⟩

theorem ratingFromCounts_not_suitable (cc : Nat) :
    ratingFromCounts false cc = ContentRating.NOT_SUITABLE := rfl

theorem ratingFromCounts_pg13 {cc : Nat} (h : cc > 3) :
    ratingFromCounts true cc = ContentRating.PG_13 := by
  unfold ratingFromCounts
  rw [if_pos rfl, if_pos h]

theorem ratingFromCounts_pg {cc : Nat} (h1 : cc > 1) (h3 : ¬ cc > 3) :
    ratingFromCounts true cc = ContentRating.PG := by
  unfold ratingFromCounts
  rw [if_pos rfl, if_neg h3, if_pos h1]

theorem ratingFromCounts_g {cc : Nat} (h : cc ≤ 1) :
    ratingFromCounts true cc = ContentRating.G := by
  unfold ratingFromCounts
  rw [if_pos rfl, if_neg (by omega : ¬ cc > 3), if_neg (by omega : ¬ cc > 1)]

theorem ratingRecsFromCounts_pg13 {cc : Nat} (h : cc > 3) :
    ratingRecsFromCounts true cc = ["Consider reducing conflict intensity"] := by
  unfold ratingRecsFromCounts
  rw [if_pos rfl, if_pos h]

theorem ratingRecsFromCounts_pg {cc : Nat} (h1 : cc > 1) (h3 : ¬ cc > 3) :
    ratingRecsFromCounts true cc = ["Minor parental guidance suggested"] := by
  unfold ratingRecsFromCounts
  rw [if_pos rfl, if_neg h3, if_pos h1]

theorem mem_matchesIn {content cat kw : String} {kws : List String}
    {tax : List (String × List String)}
    (hcat : (cat, kws) ∈ tax) (hkw : kw ∈ kws) (hm : isSub kw content = true) :
    (cat, kw) ∈ matchesIn content tax := by
  induction tax with
  | nil => cases hcat
  | cons p rest ih =>
    obtain ⟨c2, k2⟩ := p
    rw [matchesIn]
    rcases List.mem_cons.mp hcat with heq | htl
    · cases heq
      exact List.mem_append_left _
        (List.mem_map.mpr ⟨kw, List.mem_filter.mpr ⟨hkw, hm⟩, rfl⟩)
    · exact List.mem_append_right _ (ih htl)

theorem matchesIn_sublist (content : String) (tax : List (String × List String)) :
    (matchesIn content tax).Sublist (allPairs tax) := by
  induction tax with
  | nil => simp [matchesIn, allPairs]
  | cons p rest ih =>
    obtain ⟨c2, k2⟩ := p
    rw [matchesIn, allPairs]
    exact List.Sublist.append ((List.filter_sublist _).map _) ih

attribute [irreducible] matchesIn

theorem warnAll_nodup :
    ((allPairs CAUTION_KEYWORDS).map (fun p => fmtWarn p.1 p.2)).Nodup := by decide

theorem flagAll_nodup :
    ((allPairs FORBIDDEN_KEYWORDS).map (fun p => fmtFlag p.1 p.2)).Nodup := by decide

/-! ## Concrete briefs used as inputs of the closed statements -/

/-- An all-empty brief with the schema's default age range. -/
def briefBase : CreativeBrief :=
  { brief_id := "b", title := "", synopsis := "",
    target_audience_age_range := "4-8", duration_seconds := 180,
    characters := [], world_building := ⟨"", "", "", [], "", "", []⟩,
    three_act_structure := [], nine_shot_breakdown := [],
    themes := [], moral_lessons := [], visual_style := "", animation_style := "",
    music_style := "", content_safety := ⟨true, ContentRating.G, [], [], []⟩,
    generated_at := "", model_used := "", metadata := [] }

/-- A brief whose only keyword occurrence is "scared" inside a shot's
narration. -/
def briefNarr : CreativeBrief :=
  { briefBase with
    nine_shot_breakdown :=
      [⟨1, 20, "", ⟨"static", "", 5⟩, "the dragon was scared but brave", [], [],
        Option.none, Option.none⟩] }

/-- A brief whose title embeds the forbidden keyword "gun" inside the
innocuous word "begun". -/
def briefBegun : CreativeBrief := { briefBase with title := "The Games Have Begun" }

/-- A brief whose title contains the forbidden keyword "gun". -/
def briefGun : CreativeBrief := { briefBase with title := "a gun story" }

/-- A brief with exactly two caution matches ("hurt", "scared") and no
forbidden match. -/
def briefPG : CreativeBrief := { briefBase with title := "hurt and scared" }

/-- A brief whose age-range string has a non-numeric lower segment. -/
def briefBadAge : CreativeBrief := { briefBase with target_audience_age_range := "abc" }

/-- A brief in which the caution keyword "scared" occurs three times. -/
def briefRep : CreativeBrief := { briefBase with title := "scared scared scared" }

/-- Two briefs identical in every scanned field and in the age range, but
with different music styles (a field the classifier does not read). -/
def briefMusicA : CreativeBrief := { briefBase with music_style := "gentle jazz" }

/-- See `briefMusicA`. -/
def briefMusicB : CreativeBrief := { briefBase with music_style := "calm lullaby" }

/-- The classifier output on `briefGun`. -/
def checkGun : ContentSafetyCheck :=
  ⟨false, ContentRating.NOT_SUITABLE, ["VIOLENCE: \x27gun\x27 detected"], [], []⟩

/-- The classifier output on `briefPG`. -/
def checkPG : ContentSafetyCheck :=
  ⟨true, ContentRating.PG, [],
   ["Minor Peril: \x27hurt\x27 detected", "Minor Peril: \x27scared\x27 detected"],
   ["Minor parental guidance suggested",
    "Simplify language and reduce scary elements for younger audiences"]⟩

/-- The classifier output on `briefRep`. -/
def checkRep : ContentSafetyCheck :=
  ⟨true, ContentRating.G, [], ["Minor Peril: \x27scared\x27 detected"],
   ["Simplify language and reduce scary elements for younger audiences"]⟩

/-! ## Claim theorems: the safety classifier -/

/-- Claim C1 (code bug evidence): the spec says the scanned text includes all
shot narrations, and that a brief whose only caution keyword occurrence is a
narration containing "scared" gets a Minor Peril warning. In the code the
`" ".join(...)` lines of the f-string carry no braces, so they are literal
text: "scared" occurs in the narration of `briefNarr` but not in the scanned
text, and the classifier returns rating G with no warning at all. -/
theorem C1_narration_keyword_invisible :
    isSub "scared" (asciiLower "the dragon was scared but brave") = true ∧
    isSub "scared" (scannedLower briefNarr) = false ∧
    validate briefNarr = some ⟨true, ContentRating.G, [], [], []⟩ :=
  ⟨by with_unfolding_all rfl, by with_unfolding_all rfl, by with_unfolding_all rfl⟩

/-- Claim C2: any forbidden-category keyword occurring in the scanned text
forces rating NOT_SUITABLE and `is_safe = false`, and its per-keyword,
category-tagged safety flag is reported (no short-circuit: this holds for
every matched category/keyword pair simultaneously). -/
theorem C2_forbidden_forces_not_suitable (b : CreativeBrief)
    (check : ContentSafetyCheck) (cat : String) (kws : List String) (kw : String)
    (hv : validate b = some check)
    (hcat : (cat, kws) ∈ FORBIDDEN_KEYWORDS) (hkw : kw ∈ kws)
    (hmatch : isSub kw (scannedLower b) = true) :
    check.rating = ContentRating.NOT_SUITABLE ∧ check.is_safe = false ∧
      fmtFlag cat kw ∈ check.safety_flags := by
  obtain ⟨age, hag, rfl⟩ := validate_some_elim hv
  have hmem : (cat, kw) ∈ forbiddenList b := mem_matchesIn hcat hkw hmatch
  have hne : (forbiddenList b).isEmpty = false := by
    rcases hfl : forbiddenList b with _ | _
    · rw [hfl] at hmem; cases hmem
    · rfl
  have hr : ratingOf b = ContentRating.NOT_SUITABLE := by
    simp only [ratingOf, hne, ratingFromCounts_not_suitable]
  refine ⟨hr, ?_, ?_⟩
  · show isSafeOf (ratingOf b) = false
    rw [hr]
    rfl
  · exact List.mem_map.mpr ⟨(cat, kw), hmem, rfl⟩

/-- Claim C2 witness: on a concrete brief whose title contains "gun". -/
theorem C2_witness :
    validate briefGun = some checkGun ∧
    checkGun.rating = ContentRating.NOT_SUITABLE ∧ checkGun.is_safe = false ∧
    fmtFlag "violence" "gun" ∈ checkGun.safety_flags :=
  ⟨by with_unfolding_all rfl,
   C2_forbidden_forces_not_suitable briefGun checkGun "violence"
    ["kill", "murder", "stab", "shoot", "gun", "weapon", "blood", "death", "die", "dead"]
    "gun" (by with_unfolding_all rfl) (by decide) (by decide)
    (by with_unfolding_all rfl)⟩

/-- Claim C3 counterexample: the claim says the classifier never fails for
any age-range string; on a brief whose age-range lower segment is
non-numeric, `int(...)` raises a ValueError and no verdict is produced. -/
theorem C3_counterexample_bad_age : validate briefBadAge = none := by
  with_unfolding_all rfl

/-- Claim C3 (amended): whenever the segment before the first hyphen of the
age range parses as an integer, the classifier returns a verdict, and absent
any forbidden match with caution count at most 1 the rating defaults to G. -/
theorem C3_total_on_numeric_age (b : CreativeBrief) (n : Int)
    (h : ageLowerOf b = some n) :
    ∃ check, validate b = some check ∧
      (forbiddenList b = [] → cautionCount b ≤ 1 →
        check.rating = ContentRating.G) := by
  refine ⟨⟨isSafeOf (ratingOf b), ratingOf b, flagsOf b, warningsOf b, recsOf b n⟩, ?_, ?_⟩
  · unfold validate
    rw [h]
  · intro hnf h1
    have hem : (forbiddenList b).isEmpty = true := by rw [hnf]; rfl
    show ratingOf b = ContentRating.G
    unfold ratingOf
    revert h1
    generalize cautionCount b = cc
    intro h1
    rw [hem]
    exact ratingFromCounts_g h1

/-- Claim C3 witness: the amended theorem applied at `briefBase`. -/
theorem C3_witness :
    ∃ check, validate briefBase = some check ∧
      (forbiddenList briefBase = [] → cautionCount briefBase ≤ 1 →
        check.rating = ContentRating.G) :=
  C3_total_on_numeric_age briefBase 4 rfl

/-- Claim C5: with no forbidden match, the rating comes from the caution
count alone: above 3 gives PG-13 with the conflict-intensity recommendation,
2 or 3 gives PG with the mild-guidance recommendation, at most 1 gives G. -/
theorem C5_rating_from_caution_count (b : CreativeBrief)
    (check : ContentSafetyCheck)
    (hv : validate b = some check) (hnf : forbiddenList b = []) :
    (cautionCount b > 3 →
      check.rating = ContentRating.PG_13 ∧
        "Consider reducing conflict intensity" ∈ check.recommendations) ∧
    ((cautionCount b = 2 ∨ cautionCount b = 3) →
      check.rating = ContentRating.PG ∧
        "Minor parental guidance suggested" ∈ check.recommendations) ∧
    (cautionCount b ≤ 1 → check.rating = ContentRating.G) := by
  obtain ⟨age, hag, rfl⟩ := validate_some_elim hv
  have hem : (forbiddenList b).isEmpty = true := by rw [hnf]; rfl
  refine ⟨fun h3 => ⟨?_, ?_⟩, fun h23 => ⟨?_, ?_⟩, fun h1 => ?_⟩
  · show ratingOf b = ContentRating.PG_13
    unfold ratingOf
    revert h3
    generalize cautionCount b = cc
    intro h3
    rw [hem]
    exact ratingFromCounts_pg13 h3
  · have hrr : ratingRecs b = ["Consider reducing conflict intensity"] := by
      unfold ratingRecs
      revert h3
      generalize cautionCount b = cc
      intro h3
      rw [hem]
      exact ratingRecsFromCounts_pg13 h3
    exact List.mem_append_left _ (List.mem_append_left _
      (by rw [hrr]; exact List.mem_cons_self _ _))
  · show ratingOf b = ContentRating.PG
    unfold ratingOf
    revert h23
    generalize cautionCount b = cc
    intro h23
    rw [hem]
    exact ratingFromCounts_pg (by omega) (by omega)
  · have hrr : ratingRecs b = ["Minor parental guidance suggested"] := by
      unfold ratingRecs
      revert h23
      generalize cautionCount b = cc
      intro h23
      rw [hem]
      exact ratingRecsFromCounts_pg (by omega) (by omega)
    exact List.mem_append_left _ (List.mem_append_left _
      (by rw [hrr]; exact List.mem_cons_self _ _))
  · show ratingOf b = ContentRating.G
    unfold ratingOf
    revert h1
    generalize cautionCount b = cc
    intro h1
    rw [hem]
    exact ratingFromCounts_g h1

/-- Claim C5 witness: `briefPG` has caution count 2 and no forbidden match,
so it is rated PG with the mild-guidance recommendation. -/
theorem C5_witness :
    validate briefPG = some checkPG ∧ forbiddenList briefPG = [] ∧
    cautionCount briefPG = 2 ∧ checkPG.rating = ContentRating.PG ∧
    "Minor parental guidance suggested" ∈ checkPG.recommendations := by
  have hv : validate briefPG = some checkPG := by with_unfolding_all rfl
  have hnf : forbiddenList briefPG = [] := by with_unfolding_all rfl
  have hcc : cautionCount briefPG = 2 := by with_unfolding_all rfl
  have h := C5_rating_from_caution_count briefPG checkPG hv hnf
  exact ⟨hv, hnf, hcc, (h.2.1 (Or.inl hcc)).1, (h.2.1 (Or.inl hcc)).2⟩

/-- Claim C8: the classifier is a pure function of the scanned text and the
age-range string: two briefs equal on those (in particular the same brief on
two calls, there being no other state) yield identical `ContentSafetyCheck`
values — same rating and same flag, warning, and recommendation lists in the
same order. -/
theorem C8_classify_pure (b1 b2 : CreativeBrief)
    (hc : scannedContent b1 = scannedContent b2)
    (ha : b1.target_audience_age_range = b2.target_audience_age_range) :
    validate b1 = validate b2 := by
  unfold validate recsOf flagsOf warningsOf ageLowerOf ratingOf ratingRecs
    cautionCount positiveCount forbiddenList cautionList positiveList scannedLower
  rw [hc, ha]

/-- Claim C8 witness: two briefs differing only in the music style (a field
the classifier does not scan) classify identically. -/
theorem C8_witness : validate briefMusicA = validate briefMusicB :=
  C8_classify_pure briefMusicA briefMusicB (by with_unfolding_all rfl) rfl

/-- Claim C9: keyword matching is raw substring containment on the
lower-cased scanned text: a title containing only the innocuous word
"begun" (which embeds "gun") is rated NOT_SUITABLE and unsafe. -/
theorem C9_substring_matching :
    isSub "gun" (asciiLower "The Games Have Begun") = true ∧
    validate briefBegun = some checkGun ∧
    checkGun.rating = ContentRating.NOT_SUITABLE ∧ checkGun.is_safe = false :=
  ⟨by with_unfolding_all rfl, by with_unfolding_all rfl, rfl, rfl⟩

/-- Claim C10: each taxonomy keyword contributes at most once per run:
warning and flag lists are duplicate-free, the caution counter equals the
number of warning entries, the positive counter is bounded by the 17
positive keywords, and a matched caution keyword yields exactly one warning
entry however often it occurs. -/
theorem C10_keyword_counted_once (b : CreativeBrief) (check : ContentSafetyCheck)
    (hv : validate b = some check) :
    check.warnings.Nodup ∧ check.safety_flags.Nodup ∧
    cautionCount b = check.warnings.length ∧ positiveCount b ≤ 17 ∧
    (∀ cat kws kw, (cat, kws) ∈ CAUTION_KEYWORDS → kw ∈ kws →
      isSub kw (scannedLower b) = true →
      check.warnings.count (fmtWarn cat kw) = 1) := by
  obtain ⟨age, hag, rfl⟩ := validate_some_elim hv
  have hwsub : ((cautionList b).map (fun p => fmtWarn p.1 p.2)).Sublist
      ((allPairs CAUTION_KEYWORDS).map (fun p => fmtWarn p.1 p.2)) :=
    (matchesIn_sublist _ _).map _
  have hwnodup : ((cautionList b).map (fun p => fmtWarn p.1 p.2)).Nodup :=
    List.Nodup.sublist hwsub warnAll_nodup
  refine ⟨hwnodup, ?_, ?_, ?_, ?_⟩
  · exact List.Nodup.sublist ((matchesIn_sublist _ _).map _) flagAll_nodup
  · exact (List.length_map _ _).symm
  · calc positiveCount b
        = (matchesIn (scannedLower b) POSITIVE_KEYWORDS).length := rfl
      _ ≤ (allPairs POSITIVE_KEYWORDS).length :=
          (matchesIn_sublist (scannedLower b) POSITIVE_KEYWORDS).length_le
      _ = 17 := rfl
  · intro cat kws kw hcat hkw hm
    have hmem : fmtWarn cat kw ∈ (cautionList b).map (fun p => fmtWarn p.1 p.2) :=
      List.mem_map.mpr ⟨(cat, kw), mem_matchesIn hcat hkw hm, rfl⟩
    exact List.count_eq_one_of_mem hwnodup hmem

/-- Claim C10 witness: "scared" occurs three times in the title of
`briefRep`, yet the caution counter is 1 and there is exactly one warning. -/
theorem C10_witness :
    validate briefRep = some checkRep ∧
    checkRep.warnings.count (fmtWarn "minor_peril" "scared") = 1 ∧
    cautionCount briefRep = 1 ∧ checkRep.warnings.length = 1 := by
  have hv : validate briefRep = some checkRep := by with_unfolding_all rfl
  have h := C10_keyword_counted_once briefRep checkRep hv
  exact ⟨hv,
    h.2.2.2.2 "minor_peril" ["danger", "risk", "injury", "hurt", "scared"] "scared"
      (by decide) (by decide) (by with_unfolding_all rfl),
    by with_unfolding_all rfl, rfl⟩

/-! ## Well-shapedness of generic inputs to the Schema Defaulter

The predicates below say that every field which is *present* carries the
type the schema documents (fields may freely be missing — that is what the
defaulting handles). They delimit the domain on which the Python builder
neither raises nor stores an ill-typed value. -/

/-- Field check lifted over an optional dict entry: a missing key passes. -/
def optHolds (p : PyVal → Bool) : Option PyVal → Bool
  | Option.none => true
  | some v => p v

/-- The value is a string. -/
def isStrV : PyVal → Bool
  | PyVal.str _ => true
  | _ => false

/-- The value is a number. -/
def isNumV : PyVal → Bool
  | PyVal.num _ => true
  | _ => false

/-- The value is a list of strings. -/
def isStrListV : PyVal → Bool
  | PyVal.list xs => xs.all isStrV
  | _ => false

/-- The value suits an `Optional[str]` field: `null` or a string. -/
def isOptStrV : PyVal → Bool
  | PyVal.null => true
  | PyVal.str _ => true
  | _ => false

/-- Optional string field. -/
def wsStrD (kvs : List (String × PyVal)) (k : String) : Bool :=
  optHolds isStrV (dictGet kvs k)

/-- Optional numeric field. -/
def wsNumD (kvs : List (String × PyVal)) (k : String) : Bool :=
  optHolds isNumV (dictGet kvs k)

/-- Optional string-list field. -/
def wsStrListD (kvs : List (String × PyVal)) (k : String) : Bool :=
  optHolds isStrListV (dictGet kvs k)

/-- Optional `Optional[str]` field. -/
def wsOptStrD (kvs : List (String × PyVal)) (k : String) : Bool :=
  optHolds isOptStrV (dictGet kvs k)

/-- Optional list field with elementwise condition. -/
def wsListD (p : PyVal → Bool) (kvs : List (String × PyVal)) (k : String) : Bool :=
  optHolds (fun v => match v with
    | PyVal.list xs => xs.all p
    | _ => false) (dictGet kvs k)

/-- Optional dict field with member condition. -/
def wsDictD (p : List (String × PyVal) → Bool) (kvs : List (String × PyVal))
    (k : String) : Bool :=
  optHolds (fun v => match v with
    | PyVal.dict d => p d
    | _ => false) (dictGet kvs k)

/-- A well-shaped character entry. -/
def wsCharacter : PyVal → Bool
  | PyVal.dict kvs =>
      wsStrD kvs "name" && wsNumD kvs "age" && wsStrD kvs "description" &&
      wsStrListD kvs "personality_traits" && wsStrD kvs "role" &&
      wsStrD kvs "appearance" && wsOptStrD kvs "voice_characteristics" &&
      wsOptStrD kvs "character_arc"
  | _ => false

/-- Well-shaped world-building members. -/
def wsWorldKvs (w : List (String × PyVal)) : Bool :=
  wsStrD w "setting" && wsStrD w "time_period" && wsStrD w "location_description" &&
  wsStrListD w "cultural_elements" && wsStrD w "technology_level" &&
  wsStrD w "environmental_details" && wsStrListD w "rules_of_world"

/-- A well-shaped main-brief blob. -/
def wellShapedMain : PyVal → Bool
  | PyVal.dict kvs =>
      wsStrD kvs "title" && wsStrD kvs "synopsis" &&
      wsStrD kvs "target_audience_age_range" && wsNumD kvs "duration_seconds" &&
      wsListD wsCharacter kvs "characters" && wsDictD wsWorldKvs kvs "world_building" &&
      wsStrListD kvs "themes" && wsStrListD kvs "moral_lessons" &&
      wsStrD kvs "visual_style" && wsStrD kvs "animation_style" &&
      wsStrD kvs "music_style"
  | _ => false

/-- A well-shaped act entry. -/
def wsAct : PyVal → Bool
  | PyVal.dict kvs =>
      wsStrD kvs "act_type" && wsStrD kvs "title" && wsStrD kvs "description" &&
      wsNumD kvs "duration_seconds" && wsStrListD kvs "key_plot_points" &&
      wsStrD kvs "emotional_tone"
  | _ => false

/-- Well-shaped camera-direction members. -/
def wsCamKvs (c : List (String × PyVal)) : Bool :=
  wsStrD c "type" && wsStrD c "description" && wsNumD c "duration_seconds"

/-- A well-shaped shot entry. -/
def wsShot : PyVal → Bool
  | PyVal.dict kvs =>
      wsDictD wsCamKvs kvs "camera_direction" && wsNumD kvs "shot_number" &&
      wsNumD kvs "duration_seconds" && wsStrD kvs "scene_description" &&
      wsStrD kvs "narration" && wsStrListD kvs "character_actions" &&
      wsStrListD kvs "visual_elements" && wsOptStrD kvs "transitions" &&
      wsOptStrD kvs "sound_design"
  | _ => false

/-- A well-shaped shots blob. -/
def wellShapedShots : PyVal → Bool
  | PyVal.dict kvs =>
      wsListD wsAct kvs "three_act_structure" && wsListD wsShot kvs "nine_shot_breakdown"
  | _ => false

/-- The list a well-shaped blob supplies under key `k` (empty when absent). -/
def srcList (kvs : List (String × PyVal)) (k : String) : List PyVal :=
  match dictGet kvs k with
  | some (PyVal.list xs) => xs
  | _ => []

/-- The act entries a shots blob supplies. -/
def srcActsOf : PyVal → List PyVal
  | PyVal.dict kvs => srcList kvs "three_act_structure"
  | _ => []

/-- The shot entries a shots blob supplies. -/
def srcShotsOf : PyVal → List PyVal
  | PyVal.dict kvs => srcList kvs "nine_shot_breakdown"
  | _ => []

/-- A shot entry that omits its shot number (the positional-default case). -/
def shotNumOmitted : PyVal → Bool
  | PyVal.dict kvs => (dictGet kvs "shot_number").isNone
  | _ => false

/-! ## Success lemmas for the defaulter on well-shaped input -/

theorem exbind_ok {ε α β : Type} (a : α) (f : α → Except ε β) :
    ((Except.ok a : Except ε α) >>= f) = f a := rfl

theorem asStr_getD {kvs : List (String × PyVal)} {k : String} (d : String)
    (h : wsStrD kvs k = true) :
    ∃ s, asStr (getD kvs k (PyVal.str d)) = Except.ok s := by
  unfold wsStrD at h
  unfold getD
  rcases hg : dictGet kvs k with _ | v <;> rw [hg] at h
  · exact ⟨d, rfl⟩
  · cases v
    case str s => exact ⟨s, rfl⟩
    all_goals simp [optHolds, isStrV] at h

theorem asEnc_getD {kvs : List (String × PyVal)} {k : String} (d : String)
    (h : wsStrD kvs k = true) :
    ∃ s, asEncodable (getD kvs k (PyVal.str d)) = Except.ok s := by
  unfold wsStrD at h
  unfold getD
  rcases hg : dictGet kvs k with _ | v <;> rw [hg] at h
  · exact ⟨d, rfl⟩
  · cases v
    case str s => exact ⟨s, rfl⟩
    all_goals simp [optHolds, isStrV] at h

theorem pyLower_getD {kvs : List (String × PyVal)} {k : String} (d : String)
    (h : wsStrD kvs k = true) :
    ∃ s, pyLowerVal (getD kvs k (PyVal.str d)) = Except.ok s := by
  unfold wsStrD at h
  unfold getD
  rcases hg : dictGet kvs k with _ | v <;> rw [hg] at h
  · exact ⟨asciiLower d, rfl⟩
  · cases v
    case str s => exact ⟨asciiLower s, rfl⟩
    all_goals simp [optHolds, isStrV] at h

theorem asInt_getD {kvs : List (String × PyVal)} {k : String} (dflt : Int)
    (h : wsNumD kvs k = true) :
    ∃ n, asInt (getD kvs k (PyVal.num dflt)) = Except.ok n ∧
      ((dictGet kvs k).isNone = true → n = dflt) := by
  unfold wsNumD at h
  unfold getD
  rcases hg : dictGet kvs k with _ | v <;> rw [hg] at h
  · exact ⟨dflt, rfl, fun _ => rfl⟩
  · cases v
    case num n => exact ⟨n, rfl, by intro hfalse; cases hfalse⟩
    all_goals simp [optHolds, isNumV] at h

theorem strListOf_ok {xs : List PyVal} (h : xs.all isStrV = true) :
    ∃ l, strListOf xs = Except.ok l := by
  induction xs with
  | nil => exact ⟨[], rfl⟩
  | cons v vs ih =>
    rw [List.all_cons] at h
    rw [Bool.and_eq_true] at h
    obtain ⟨h1, h2⟩ := h
    obtain ⟨l, hl⟩ := ih h2
    cases v
    case str s => exact ⟨s :: l, by unfold strListOf; rw [hl]⟩
    all_goals simp [isStrV] at h1

theorem asStrList_getD {kvs : List (String × PyVal)} {k : String}
    (h : wsStrListD kvs k = true) :
    ∃ l, asStrList (getD kvs k (PyVal.list [])) = Except.ok l := by
  unfold wsStrListD at h
  unfold getD
  rcases hg : dictGet kvs k with _ | v <;> rw [hg] at h
  · exact ⟨[], rfl⟩
  · cases v
    case list xs =>
      obtain ⟨l, hl⟩ := strListOf_ok (by simpa [optHolds, isStrListV] using h)
      exact ⟨l, hl⟩
    all_goals simp [optHolds, isStrListV] at h

theorem getOptStr_ok {kvs : List (String × PyVal)} {k : String}
    (h : wsOptStrD kvs k = true) :
    ∃ o, getOptStr kvs k = Except.ok o := by
  unfold wsOptStrD at h
  unfold getOptStr
  rcases hg : dictGet kvs k with _ | v <;> rw [hg] at h
  · exact ⟨Option.none, rfl⟩
  · cases v
    case null => exact ⟨Option.none, rfl⟩
    case str s => exact ⟨some s, rfl⟩
    all_goals simp [optHolds, isOptStrV] at h

theorem asDict_getD {p : List (String × PyVal) → Bool} {kvs : List (String × PyVal)}
    {k : String} (hnil : p [] = true) (h : wsDictD p kvs k = true) :
    ∃ d, asDictAttr (getD kvs k (PyVal.dict [])) = Except.ok d ∧ p d = true := by
  unfold wsDictD at h
  unfold getD
  rcases hg : dictGet kvs k with _ | v <;> rw [hg] at h
  · exact ⟨[], rfl, hnil⟩
  · cases v
    case dict d => exact ⟨d, rfl, by simpa [optHolds] using h⟩
    all_goals simp [optHolds] at h

theorem iter_getD {p : PyVal → Bool} {kvs : List (String × PyVal)} {k : String}
    (h : wsListD p kvs k = true) :
    iterElems (getD kvs k (PyVal.list [])) = Except.ok (srcList kvs k) ∧
      (srcList kvs k).all p = true := by
  unfold wsListD at h
  unfold getD srcList
  rcases hg : dictGet kvs k with _ | v <;> rw [hg] at h
  · exact ⟨rfl, rfl⟩
  · cases v
    case list xs => exact ⟨rfl, by simpa [optHolds] using h⟩
    all_goals simp [optHolds] at h

theorem slice9_getD {kvs : List (String × PyVal)} {k : String} {p : PyVal → Bool}
    (h : wsListD p kvs k = true) :
    slice9 (getD kvs k (PyVal.list [])) = Except.ok ((srcList kvs k).take 9) ∧
      ((srcList kvs k).take 9).all p = true := by
  unfold wsListD at h
  unfold getD srcList
  rcases hg : dictGet kvs k with _ | v <;> rw [hg] at h
  · exact ⟨rfl, rfl⟩
  · cases v
    case list xs =>
      refine ⟨rfl, ?_⟩
      have hall : xs.all p = true := by simpa [optHolds] using h
      rw [List.all_eq_true] at hall ⊢
      intro x hx
      exact hall x (List.take_subset 9 xs hx)
    all_goals simp [optHolds] at h

theorem parseCharacter_ok {v : PyVal} (h : wsCharacter v = true) :
    ∃ c, parseCharacter v = Except.ok c := by
  cases v <;> simp only [wsCharacter] at h
  case dict kvs =>
    simp only [Bool.and_eq_true] at h
    obtain ⟨⟨⟨⟨⟨⟨⟨h1, h2⟩, h3⟩, h4⟩, h5⟩, h6⟩, h7⟩, h8⟩ := h
    obtain ⟨name, e1⟩ := asStr_getD "Unknown" h1
    obtain ⟨age, e2, _⟩ := asInt_getD 5 h2
    obtain ⟨descr, e3⟩ := asStr_getD "" h3
    obtain ⟨traits, e4⟩ := asStrList_getD h4
    obtain ⟨role, e5⟩ := asStr_getD "character" h5
    obtain ⟨app, e6⟩ := asStr_getD "" h6
    obtain ⟨voice, e7⟩ := getOptStr_ok h7
    obtain ⟨arc, e8⟩ := getOptStr_ok h8
    refine ⟨⟨name, age, descr, traits, role, app, voice, arc⟩, ?_⟩
    simp only [parseCharacter, e1, e2, e3, e4, e5, e6, e7, e8, exbind_ok]
  all_goals cases h

theorem parseWorld_getD {kvs : List (String × PyVal)}
    (h : wsDictD wsWorldKvs kvs "world_building" = true) :
    ∃ w, parseWorld (getD kvs "world_building" (PyVal.dict [])) = Except.ok w := by
  obtain ⟨wk, ew, hw⟩ := asDict_getD (p := wsWorldKvs) rfl h
  simp only [wsWorldKvs, Bool.and_eq_true] at hw
  obtain ⟨⟨⟨⟨⟨⟨h1, h2⟩, h3⟩, h4⟩, h5⟩, h6⟩, h7⟩ := hw
  obtain ⟨setting, e1⟩ := asStr_getD "Unknown" h1
  obtain ⟨tp, e2⟩ := asStr_getD "Present" h2
  obtain ⟨loc, e3⟩ := asStr_getD "" h3
  obtain ⟨cult, e4⟩ := asStrList_getD h4
  obtain ⟨tech, e5⟩ := asStr_getD "Modern" h5
  obtain ⟨env, e6⟩ := asStr_getD "" h6
  obtain ⟨rules, e7⟩ := asStrList_getD h7
  refine ⟨⟨setting, tp, loc, cult, tech, env, rules⟩, ?_⟩
  simp only [parseWorld, ew, e1, e2, e3, e4, e5, e6, e7, exbind_ok]

theorem parseAct_ok {v : PyVal} (h : wsAct v = true) :
    ∃ a, parseAct v = Except.ok a := by
  cases v <;> simp only [wsAct] at h
  case dict kvs =>
    simp only [Bool.and_eq_true] at h
    obtain ⟨⟨⟨⟨⟨h1, h2⟩, h3⟩, h4⟩, h5⟩, h6⟩ := h
    obtain ⟨at_, e1⟩ := pyLower_getD "Setup" h1
    obtain ⟨title, e2⟩ := asStr_getD "" h2
    obtain ⟨descr, e3⟩ := asStr_getD "" h3
    obtain ⟨dur, e4, _⟩ := asInt_getD 60 h4
    obtain ⟨points, e5⟩ := asStrList_getD h5
    obtain ⟨tone, e6⟩ := asStr_getD "" h6
    refine ⟨⟨if isSub "setup" at_ then ActType.SETUP
        else if isSub "confrontation" at_ then ActType.CONFRONTATION
        else ActType.RESOLUTION, title, descr, dur, points, tone⟩, ?_⟩
    simp only [parseAct, e1, e2, e3, e4, e5, e6, exbind_ok]
  all_goals cases h

theorem parseList_ok {α : Type} {f : PyVal → Except BuildErr α} {xs : List PyVal}
    {p : PyVal → Bool} (hf : ∀ v, p v = true → ∃ a, f v = Except.ok a)
    (h : xs.all p = true) :
    ∃ l, parseList f xs = Except.ok l ∧ l.length = xs.length := by
  induction xs with
  | nil => exact ⟨[], rfl, rfl⟩
  | cons v vs ih =>
    rw [List.all_cons] at h
    rw [Bool.and_eq_true] at h
    obtain ⟨h1, h2⟩ := h
    obtain ⟨a, ha⟩ := hf v h1
    obtain ⟨l, hl, hlen⟩ := ih h2
    refine ⟨a :: l, ?_, by simp [hlen]⟩
    unfold parseList
    rw [ha, hl]

theorem parseShot_ok {v : PyVal} (idx : Nat) (h : wsShot v = true) :
    ∃ s, parseShot idx v = Except.ok s ∧
      (shotNumOmitted v = true → s.shot_number = ((idx + 1 : Nat) : Int)) := by
  cases v <;> simp only [wsShot] at h
  case dict kvs =>
    simp only [Bool.and_eq_true] at h
    obtain ⟨⟨⟨⟨⟨⟨⟨⟨h1, h2⟩, h3⟩, h4⟩, h5⟩, h6⟩, h7⟩, h8⟩, h9⟩ := h
    obtain ⟨ck, ec, hc⟩ := asDict_getD (p := wsCamKvs) rfl h1
    simp only [wsCamKvs, Bool.and_eq_true] at hc
    obtain ⟨⟨c1, c2⟩, c3⟩ := hc
    obtain ⟨ct, f1⟩ := asStr_getD "static" c1
    obtain ⟨cd, f2⟩ := asStr_getD "" c2
    obtain ⟨cdur, f3, _⟩ := asInt_getD 5 c3
    obtain ⟨sn, e2, hsn⟩ := asInt_getD ((idx + 1 : Nat) : Int) h2
    obtain ⟨dur, e3, _⟩ := asInt_getD 20 h3
    obtain ⟨scene, e4⟩ := asStr_getD "" h4
    obtain ⟨narr, e5⟩ := asStr_getD "" h5
    obtain ⟨acts, e6⟩ := asStrList_getD h6
    obtain ⟨vis, e7⟩ := asStrList_getD h7
    obtain ⟨tr, e8⟩ := getOptStr_ok h8
    obtain ⟨sd, e9⟩ := getOptStr_ok h9
    refine ⟨⟨sn, dur, scene, ⟨ct, cd, cdur⟩, narr, acts, vis, tr, sd⟩, ?_, ?_⟩
    · simp only [parseShot, ec, f1, f2, f3, e2, e3, e4, e5, e6, e7, e8, e9, exbind_ok]
    · intro hom
      exact hsn (by simpa [shotNumOmitted] using hom)
  all_goals cases h

theorem parseShotsIdx_ok : ∀ (xs : List PyVal) (idx : Nat), xs.all wsShot = true →
    ∃ shots, parseShotsIdx idx xs = Except.ok shots ∧ shots.length = xs.length ∧
      (∀ i v s, xs[i]? = some v → shots[i]? = some s → shotNumOmitted v = true →
        s.shot_number = ((idx + i + 1 : Nat) : Int)) := by
  intro xs
  induction xs with
  | nil =>
    intro idx _
    exact ⟨[], rfl, rfl, by intro i v s hv; simp at hv⟩
  | cons v vs ih =>
    intro idx h
    rw [List.all_cons] at h
    rw [Bool.and_eq_true] at h
    obtain ⟨h1, h2⟩ := h
    obtain ⟨s, hs, hnum⟩ := parseShot_ok idx h1
    obtain ⟨shots, hshots, hlen, hnums⟩ := ih (idx + 1) h2
    refine ⟨s :: shots, ?_, by simp [hlen], ?_⟩
    · unfold parseShotsIdx
      rw [hs, hshots]
    · intro i w t hw ht hom
      cases i with
      | zero =>
        simp only [List.getElem?_cons_zero, Option.some.injEq] at hw ht
        subst hw; subst ht
        simpa using hnum hom
      | succ j =>
        simp only [List.getElem?_cons_succ] at hw ht
        have := hnums j w t hw ht hom
        have harith : idx + 1 + j + 1 = idx + (j + 1) + 1 := by omega
        rw [harith] at this
        exact this

/-- Totality and structure of the defaulter on well-shaped input: the build
succeeds, acts are defaulted to the three-act skeleton exactly when the
source supplies none (otherwise their count is the source count, uncapped),
shots are truncated to the first nine with the nine-shot default only when
the source supplies none, and a shot entry without a `shot_number` key gets
its 1-based position. -/
theorem build_ok {idf : String → String} {now model : String} {d1 d2 : PyVal}
    (h1 : wellShapedMain d1 = true) (h2 : wellShapedShots d2 = true) :
    ∃ b, buildBriefObject idf now model d1 d2 = Except.ok b ∧
      b.three_act_structure.length =
        (if (srcActsOf d2).isEmpty then 3 else (srcActsOf d2).length) ∧
      b.nine_shot_breakdown.length =
        (if (srcShotsOf d2).isEmpty then 9 else min 9 (srcShotsOf d2).length) ∧
      (∀ i v s, ((srcShotsOf d2).take 9)[i]? = some v →
        b.nine_shot_breakdown[i]? = some s → shotNumOmitted v = true →
        s.shot_number = ((i + 1 : Nat) : Int)) := by
  cases d1 <;> simp only [wellShapedMain] at h1 <;> try exact absurd h1 (by decide)
  case dict bkvs =>
  cases d2 <;> simp only [wellShapedShots] at h2 <;> try exact absurd h2 (by decide)
  case dict skvs =>
  simp only [Bool.and_eq_true] at h1 h2
  obtain ⟨⟨⟨⟨⟨⟨⟨⟨⟨⟨m1, m2⟩, m3⟩, m4⟩, m5⟩, m6⟩, m7⟩, m8⟩, m9⟩, m10⟩, m11⟩ := h1
  obtain ⟨s1, s2⟩ := h2
  have eb : asDictAttr (PyVal.dict bkvs) = Except.ok bkvs := rfl
  have es : asDictAttr (PyVal.dict skvs) = Except.ok skvs := rfl
  obtain ⟨tfi, e1⟩ := asEnc_getD "untitled" m1
  obtain ⟨e2, hcall⟩ := iter_getD (p := wsCharacter) m5
  obtain ⟨chars, e3, -⟩ := parseList_ok (fun v hv => parseCharacter_ok hv) hcall
  obtain ⟨world, e4⟩ := parseWorld_getD m6
  obtain ⟨e5, haall⟩ := iter_getD (p := wsAct) s1
  obtain ⟨acts, e6, hlenA⟩ := parseList_ok (fun v hv => parseAct_ok hv) haall
  obtain ⟨e7, hsall⟩ := slice9_getD (p := wsShot) s2
  obtain ⟨shots, e8, hlenS, hnums⟩ :=
    parseShotsIdx_ok ((srcList skvs "nine_shot_breakdown").take 9) 0 hsall
  obtain ⟨title, f1⟩ := asStr_getD "Untitled Story" m1
  obtain ⟨syn, f2⟩ := asStr_getD "" m2
  obtain ⟨ageR, f3⟩ := asStr_getD "4-8" m3
  obtain ⟨dur, f4, -⟩ := asInt_getD 180 m4
  obtain ⟨themes, f5⟩ := asStrList_getD m7
  obtain ⟨lessons, f6⟩ := asStrList_getD m8
  obtain ⟨vis, f7⟩ := asStr_getD "" m9
  obtain ⟨anim, f8⟩ := asStr_getD "" m10
  obtain ⟨music, f9⟩ := asStr_getD "" m11
  refine ⟨{ brief_id := idf tfi, title := title, synopsis := syn,
            target_audience_age_range := ageR, duration_seconds := dur,
            characters := chars, world_building := world,
            three_act_structure := if acts.isEmpty then defaultActs else acts,
            nine_shot_breakdown := if shots.isEmpty then defaultShots else shots,
            themes := themes, moral_lessons := lessons, visual_style := vis,
            animation_style := anim, music_style := music,
            content_safety := ⟨true, ContentRating.G, [], [], []⟩,
            generated_at := now, model_used := model,
            metadata := [("generator_version", PyVal.str "1.0"),
              ("generation_timestamp", PyVal.str now),
              ("prompt_length",
                PyVal.num ((pyReprVal (PyVal.dict bkvs)).length : Nat))] },
    ?_, ?_, ?_, ?_⟩
  · simp only [buildBriefObject, eb, es, e1, e2, e3, e4, e5, e6, e7, e8,
      f1, f2, f3, f4, f5, f6, f7, f8, f9, exbind_ok]
  · simp only [srcActsOf]
    rcases hsrc : srcList skvs "three_act_structure" with _ | ⟨x, xs⟩ <;>
      rw [hsrc] at hlenA
    · have hA : acts = [] := by
        cases acts with
        | nil => rfl
        | cons a as => simp at hlenA
      rw [hA]
      rfl
    · cases acts with
      | nil => simp at hlenA
      | cons a as => exact hlenA
  · simp only [srcShotsOf]
    rcases hsrc : srcList skvs "nine_shot_breakdown" with _ | ⟨x, xs⟩ <;>
      rw [hsrc] at hlenS
    · have hS : shots = [] := by
        cases shots with
        | nil => rfl
        | cons s0 ss => simp at hlenS
      rw [hS]
      simp [defaultShots]
    · cases shots with
      | nil => simp [List.length_take] at hlenS
      | cons s0 ss =>
        show (s0 :: ss).length = min 9 (x :: xs).length
        rw [List.length_take] at hlenS
        exact hlenS
  · intro i v s hv hs hom
    simp only [srcShotsOf] at hv
    cases shots with
    | nil =>
      have htk : (srcList skvs "nine_shot_breakdown").take 9 = [] :=
        List.length_eq_zero.mp hlenS.symm
      rw [htk] at hv
      simp at hv
    | cons s0 ss =>
      simpa using hnums i v s hv hs hom

/-- Claim C4 counterexample: a wrong-typed `characters` field (an int where
a list belongs) is not defaulted — the build aborts with the TypeError the
Python `for` loop raises on a non-iterable. -/
theorem C4_counterexample_wrong_typed :
    buildBriefObject (fun _ => "id0") "now" "m"
        (PyVal.dict [("characters", PyVal.num 5)]) (PyVal.dict [])
      = Except.error (BuildErr.typeErr "object is not iterable") := rfl

/-- Claim C4 (amended): the defaulter is total on well-shaped generic input —
every field may be missing but present fields carry their schema type — and
on fully empty input it returns exactly the documented default record: title
"Untitled Story", age range "4-8", 180-second duration, the three default
60-second acts, and the nine default 20-second static shots with "Cut"
transitions and "Ambient sound" sound design. -/
theorem C4_defaulter_totality (idf : String → String) (now model : String) :
    (∀ d1 d2, wellShapedMain d1 = true → wellShapedShots d2 = true →
      ∃ b, buildBriefObject idf now model d1 d2 = Except.ok b) ∧
    buildBriefObject idf now model (PyVal.dict []) (PyVal.dict [])
      = Except.ok { brief_id := idf "untitled",
                    title := "Untitled Story",
                    synopsis := "",
                    target_audience_age_range := "4-8",
                    duration_seconds := 180,
                    characters := [],
                    world_building := ⟨"Unknown", "Present", "", [], "Modern", "", []⟩,
                    three_act_structure := defaultActs,
                    nine_shot_breakdown := defaultShots,
                    themes := [],
                    moral_lessons := [],
                    visual_style := "",
                    animation_style := "",
                    music_style := "",
                    content_safety := ⟨true, ContentRating.G, [], [], []⟩,
                    generated_at := now,
                    model_used := model,
                    metadata :=
                      [("generator_version", PyVal.str "1.0"),
                       ("generation_timestamp", PyVal.str now),
                       ("prompt_length",
                         PyVal.num ((pyReprVal (PyVal.dict [])).length : Nat))] } := by
  refine ⟨fun d1 d2 h1 h2 => ?_, rfl⟩
  obtain ⟨b, hb, -, -, -⟩ := build_ok h1 h2
  exact ⟨b, hb⟩

/-- Witness for C4 at a concrete well-shaped input. -/
theorem C4_witness :
    ∃ b, buildBriefObject (fun _ => "id0") "2025-01-01T00:00:00" "gpt"
        (PyVal.dict [("title", PyVal.str "A Day")]) (PyVal.dict [])
      = Except.ok b :=
  (C4_defaulter_totality (fun _ => "id0") "2025-01-01T00:00:00" "gpt").1
    (PyVal.dict [("title", PyVal.str "A Day")]) (PyVal.dict [])
    (by decide) (by decide)

/-- Claim C6 counterexample: four source act entries yield four acts — the
built brief does not have exactly 3 acts, the act list is never truncated or
padded when nonempty. -/
theorem C6_counterexample_four_acts :
    (buildBriefObject (fun _ => "idX") "now" "m" (PyVal.dict [])
        (PyVal.dict [("three_act_structure",
          PyVal.list [PyVal.dict [("act_type", PyVal.str "Setup")],
            PyVal.dict [("act_type", PyVal.str "Setup")],
            PyVal.dict [("act_type", PyVal.str "Setup")],
            PyVal.dict [("act_type", PyVal.str "Setup")]])])).map
      (fun b => b.three_act_structure.length) = Except.ok 4 := rfl

/-- Claim C6 (amended): on well-shaped input the brief has exactly 3 acts
only as a fallback when the source supplies none (otherwise the act count is
the source count, unbounded); shots are truncated to the first nine source
entries with the nine-shot default only when the source supplies none; and a
source shot entry without a `shot_number` key gets its 1-based position in
the truncated output list. -/
theorem C6_act_and_shot_structure (idf : String → String) (now model : String)
    (d1 d2 : PyVal) (h1 : wellShapedMain d1 = true)
    (h2 : wellShapedShots d2 = true) :
    ∃ b, buildBriefObject idf now model d1 d2 = Except.ok b ∧
      b.three_act_structure.length =
        (if (srcActsOf d2).isEmpty then 3 else (srcActsOf d2).length) ∧
      b.nine_shot_breakdown.length =
        (if (srcShotsOf d2).isEmpty then 9 else min 9 (srcShotsOf d2).length) ∧
      (∀ i v s, ((srcShotsOf d2).take 9)[i]? = some v →
        b.nine_shot_breakdown[i]? = some s → shotNumOmitted v = true →
        s.shot_number = ((i + 1 : Nat) : Int)) :=
  build_ok h1 h2

/-- A shot entry with every field defaulted. -/
def shotW0 : PyVal := PyVal.dict []

/-- A shots blob with twelve entries, the third carrying an explicit
shot number. -/
def shotsW : PyVal :=
  PyVal.dict [("nine_shot_breakdown",
    PyVal.list [shotW0, shotW0, PyVal.dict [("shot_number", PyVal.num 77)],
      shotW0, shotW0, shotW0, shotW0, shotW0, shotW0, shotW0, shotW0, shotW0])]

/-- Witness for C6 at a concrete twelve-shot input. -/
theorem C6_witness :
    ∃ b, buildBriefObject (fun _ => "idW") "t0" "m0" (PyVal.dict []) shotsW
        = Except.ok b ∧
      b.three_act_structure.length =
        (if (srcActsOf shotsW).isEmpty then 3 else (srcActsOf shotsW).length) ∧
      b.nine_shot_breakdown.length =
        (if (srcShotsOf shotsW).isEmpty then 9 else min 9 (srcShotsOf shotsW).length) ∧
      (∀ i v s, ((srcShotsOf shotsW).take 9)[i]? = some v →
        b.nine_shot_breakdown[i]? = some s → shotNumOmitted v = true →
        s.shot_number = ((i + 1 : Nat) : Int)) :=
  C6_act_and_shot_structure (fun _ => "idW") "t0" "m0" (PyVal.dict []) shotsW
    (by decide) (by decide)

/-- The malformed model output: the value of key "a" contains the text
", ]" shape inside a string, and key "cd" is unquoted; strict parsing fails
on the unquoted key alone. -/
def jsonBadInput : String := "\x7b\"a\": \"b ,]\", cd: 1\x7d"

/-- The same document with the key properly quoted: strict parsing succeeds
and preserves the string value verbatim. -/
def jsonGoodInput : String := "\x7b\"a\": \"b ,]\", \"cd\": 1\x7d"

/-- Claim C7 (code-bug evidence): on an input whose strict parse fails only
because of an unquoted key, the trailing-comma repair also fires inside the
string value "b ,]" and deletes its comma — the repaired parse stores "b ]"
where the author wrote "b ,]", as the properly quoted variant of the same
document shows. -/
theorem C7_repair_corrupts_string_value :
    jsonLoads jsonBadInput = none ∧
    validate_and_repair jsonBadInput
      = some (PyVal.dict [("a", PyVal.str "b ]"), ("cd", PyVal.num 1)]) ∧
    jsonLoads jsonGoodInput
      = some (PyVal.dict [("a", PyVal.str "b ,]"), ("cd", PyVal.num 1)]) :=
  ⟨rfl, rfl, rfl⟩

end KidsShorts
